import Mathlib

/-!
Shallow embedding of the CCmasterbot media pipeline
(`src/modules/videoprocessor.py`, `src/modules/instagram_scheduler.py`,
`src/modules/instagram_manager.py`, `src/modules/cloud_storage.py`,
`src/main.py`) together with theorems settling the spec claims.

External effects (ffmpeg/ffprobe invocations, Google Drive calls, HTTP
requests, the filesystem) are modelled by explicit outcome parameters; the
control flow, the strings built by the code, and the cleanup/return
structure are translated branch-for-branch from the Python source.
-/

namespace CCmasterbot

/-- Python truthiness of an optional string (`if not x:` is taken for
`None` and for the empty string), used by `schedule_post` and
`upload_media` for env-var and draft-field checks. -/
def truthy : Option String → Bool
  | none => false
  | some s => !s.isEmpty

/-- Leading-match test: `leadMatch pat l` is true when `pat` occurs at the
head of `l` (character-list version, helper for substring search). -/
def leadMatch : List Char → List Char → Bool
  | [], _ => true
  | _ :: _, [] => false
  | a :: as, b :: bs => a == b && leadMatch as bs

/-- Number of occurrences (at distinct start positions) of `pat` inside a
character list. -/
def countSub (pat : List Char) : List Char → Nat
  | [] => 0
  | c :: cs => (if leadMatch pat (c :: cs) then 1 else 0) + countSub pat cs

/-- Substring test on strings, via `countSub`. -/
def hasSub (pat s : String) : Bool := countSub pat.data s.data != 0

/-- Number of sinusoid terms appearing in an ffmpeg expression string:
occurrences of `sin(` plus occurrences of `cos(`. -/
def sinusoidCount (s : String) : Nat :=
  countSub "sin(".data s.data + countSub "cos(".data s.data

/-! ### Overlay filter strings

These are the exact filter-graph strings built by the two builder variants.
`\x27` is the ASCII apostrophe character used by the Python literals. -/

/-- X-coordinate expression of the watermark in
`VideoProcessor.add_bounce_logo` (videoprocessor.py line 107). -/
def xExprVP : String := "(W-w)/2+120*sin(2.1*PI*t/10)+80*cos(1.6*PI*t/6)"

/-- Y-coordinate expression of the watermark in
`VideoProcessor.add_bounce_logo` (videoprocessor.py line 108). -/
def yExprVP : String :=
  "if(gt(Y,H/9),(H/9-h)/2,if(lt(Y,8*H/9),(H/9-h)/2,0))"

/-- Full `-filter_complex` string built by `VideoProcessor.add_bounce_logo`
(videoprocessor.py lines 103-110), concatenated exactly as in the source. -/
def bounce_filter : String :=
  "[0:v]scale=1920:1080:force_original_aspect_ratio=decrease,pad=1920:1080:(ow-iw)/2:(oh-ih)/2:black[bg];"
  ++ "[1:v]scale=400:-1[logo];"
  ++ "[bg][logo]overlay="
  ++ "x=\x27" ++ xExprVP ++ "\x27:"
  ++ "y=\x27" ++ yExprVP ++ "\x27:"
  ++ "enable=\x27between(t,0,30)\x27"

/-- X-coordinate expression of the watermark in the scheduler variant
`process_video` (instagram_scheduler.py line 56). -/
def xExprSched : String := "(W-w)/2+120*sin(2*PI*t/10)"

/-- Y-coordinate expression of the watermark in the scheduler variant
`process_video` (instagram_scheduler.py line 56). -/
def yExprSched : String := "280+90*sin(2*PI*t/8)"

/-- Full `-filter_complex` string built by `process_video`
(instagram_scheduler.py lines 52-57). -/
def filter_chain : String :=
  "[0:v]scale=1080:608:force_original_aspect_ratio=increase,"
  ++ "crop=1080:608,pad=1080:1920:0:656:black[bg];"
  ++ "[1:v]scale=350:-1[logo];"
  ++ "[bg][logo]overlay=x=\x27" ++ xExprSched ++ "\x27:y=\x27" ++ yExprSched ++ "\x27"

/-! ### Segment selection -/

/-- Maximum output duration in seconds (videoprocessor.py line 39,
`MAX_DURATION = 90`). -/
def MAX_DURATION : ℚ := 90

/-- Segment window chosen by `VideoProcessor.extract_segment`
(videoprocessor.py lines 83-93): the code computes
`t = min(duration, MAX_DURATION)` and passes `-t t` with no `-ss`, so the
selected half-open window is `[0, min D MAX_DURATION)`. `D` is the probed
duration (`get_duration` returns 0 on probe failure). -/
def segmentWindow (D : ℚ) : ℚ × ℚ := (0, min D MAX_DURATION)

/-- Modelled from the spec: the margin-skipping segment-selection policy of
spec section 4.1 (symmetric 10% skip margin, else a centred window of
length `M` clamped at 0). No such logic exists anywhere in the source;
this definition follows the spec words and exists only to be compared with
`segmentWindow`. -/
def specMarginWindow (D M : ℚ) : ℚ × ℚ :=
  if D ≤ M then (0, D)
  else
    let margin := D / 10
    if M ≤ D - 2 * margin then (margin, margin + M)
    else
      let s := max 0 ((D - M) / 2)
      (s, s + M)

/-! ### Transcode result classification -/

/-- Result classification of one ffmpeg invocation by
`VideoProcessor.extract_segment` / `VideoProcessor.add_bounce_logo`
(videoprocessor.py lines 95-99 and 118-122): the Python checks only
`result.returncode != 0`; the existence of the output file is never
consulted (the `outputExists` parameter is deliberately unused, mirroring
the source). On failure the logged diagnostic is `result.stderr[:300]`.
Returns (success flag, logged diagnostic if any). -/
def transcodeClassify (returncode : Int) (outputExists : Bool)
    (stderr : List Char) : Bool × Option (List Char) :=
  if returncode != 0 then (false, some (stderr.take 300)) else (true, none)

/-- Result classification of one ffmpeg invocation by the scheduler variant
`process_video` (instagram_scheduler.py lines 70-74): same shape, with the
diagnostic truncated to `result.stderr[:200]`. -/
def transcodeClassifySched (returncode : Int) (outputExists : Bool)
    (stderr : List Char) : Bool × Option (List Char) :=
  if returncode != 0 then (false, some (stderr.take 200)) else (true, none)

/-! ### Publish clients -/

/-- Response of the media-create HTTP call: its status code and the
optional `id` field of the JSON body (`resp.json().get("id")`). -/
structure CreateResp where
  status : Nat
  idField : Option Nat
deriving DecidableEq, Repr

/-- Two-phase publish client `post_to_instagram` (videoprocessor.py lines
177-201). First component: the returned success flag. Second component:
the `creation_id` sent to the `media_publish` endpoint, `none` when that
second call was never made. The Python takes `media_id =
resp.json().get("id")` without checking it, so a create response lacking
the id field still proceeds to the publish call with a null creation id. -/
def post_to_instagram (create : CreateResp) (publishStatus : Nat) :
    Bool × Option (Option Nat) :=
  if create.status != 200 then (false, none)
  else
    let mediaId := create.idField
    if publishStatus != 200 then (false, some mediaId)
    else (true, some mediaId)

/-- Single-call client `InstagramManager.schedule_post`
(instagram_manager.py lines 8-35): checks the draft field `public_media_url`,
then the two credential env vars, makes one `media` (create) call and
returns true iff its JSON response contains an `id` field. No
`media_publish` call exists in this function. -/
def schedule_post (publicMediaUrl accessToken igId : Option String)
    (createIdField : Option Nat) : Bool :=
  if !truthy publicMediaUrl then false
  else if !truthy accessToken || !truthy igId then false
  else
    match createIdField with
    | none => false
    | some _ => true

/-! ### Cloud storage: upload_media / _extract_file_path -/

/-- Python values as far as `_extract_file_path` distinguishes them:
strings, dicts (association lists keyed by strings, unique keys), and
anything else. -/
inductive PyVal where
  | str (s : String)
  | dict (entries : List (String × PyVal))
  | other
deriving Repr

/-- Python exceptions raised by `upload_media` / `_extract_file_path`. -/
inductive PyErr where
  | valueError
  | typeError
  | runtimeError
deriving DecidableEq, Repr

/-- Dict lookup (`key in d` plus `d[key]`); Python dict keys are unique so
first-match association-list lookup is faithful. -/
def dictGet (d : List (String × PyVal)) (k : String) : Option PyVal :=
  match d with
  | [] => none
  | (k2, v) :: rest => if k2 == k then some v else dictGet rest k

/-- Value of key `k` in `d` when present and a string, else `none`
(`key in media_input and isinstance(media_input[key], str)`). -/
def strAt (d : List (String × PyVal)) (k : String) : Option String :=
  match dictGet d k with
  | some (PyVal.str s) => some s
  | _ => none

/-- Key-search order of `_extract_file_path` (cloud_storage.py line 141). -/
def path_keys : List String :=
  ["path", "file_path", "local_path", "filename", "file", "video_path"]

/-- Loop `for key in path_keys: if key in d and isinstance(d[key], str):
return d[key]` over a given key list. -/
def findPathKey (d : List (String × PyVal)) : List String → Option String
  | [] => none
  | k :: ks =>
    match strAt d k with
    | some s => some s
    | none => findPathKey d ks

/-- Embedding of `CloudStorage._extract_file_path` (cloud_storage.py lines
127-168): a string is returned unchanged; a dict is searched over
`path_keys` in order, then the same keys under a nested `media` dict;
otherwise `ValueError`; any non-string non-dict input raises
`TypeError`. -/
def extract_file_path : PyVal → Except PyErr String
  | PyVal.str s => Except.ok s
  | PyVal.dict d =>
    match findPathKey d path_keys with
    | some s => Except.ok s
    | none =>
      match dictGet d "media" with
      | some (PyVal.dict m) =>
        match findPathKey m path_keys with
        | some s => Except.ok s
        | none => Except.error PyErr.valueError
      | _ => Except.error PyErr.valueError
  | PyVal.other => Except.error PyErr.typeError

/-- Embedding of `CloudStorage.upload_media` (cloud_storage.py lines
76-125). `folderId` is the `PROCESSED_FOLDER_ID` env var, `fileOnDisk`
models `os.path.exists`, `driveUrl` models the Drive upload (CreateFile,
SetContentFile, Upload, InsertPermission) returning the public URL for a
path. An `Except.ok` result means the Drive upload was performed; every
error path returns before any Drive call is made. -/
def upload_media (folderId : Option String) (fileOnDisk : String → Bool)
    (driveUrl : String → String) (input : PyVal) : Except PyErr String :=
  if !truthy folderId then Except.error PyErr.runtimeError
  else
    match extract_file_path input with
    | Except.error e => Except.error e
    | Except.ok p =>
      if !fileOnDisk p then Except.error PyErr.runtimeError
      else Except.ok (driveUrl p)

/-! ### Pipeline orchestration (videoprocessor.py)

`process_and_upload` downloads the candidate to a fresh temp file,
extracts the segment into a second temp file, overlays the logo into a
third, uploads the result, removes the three temp files and deletes the
original — all before any Instagram call. Each `tempfile.NamedTemporaryFile
(delete=False)` creates its file on disk at allocation time, so an output
temp path exists on disk even when the ffmpeg invocation that was supposed
to fill it fails. External outcomes are supplied by `StageOutcomes`. -/

/-- Temp files allocated by one `process_and_upload` job: the downloaded
input, the segment output, and the final (logo) output. -/
inductive Temp where
  | input
  | seg
  | finalOut
deriving DecidableEq, Repr

/-- Exceptions that `process_and_upload` does not catch and therefore
propagates to `run_pipeline` (which has no try/except either): a failing
`file_obj.GetContentFile`, a failing Drive upload, a failing
`file_obj.Delete()`. -/
inductive PExc where
  | downloadErr
  | uploadErr
  | deleteErr
deriving DecidableEq, Repr

/-- Outcomes of the external effects touched while processing one
candidate: whether each fallible call raises or fails, the URL returned by
the upload, and the two HTTP responses of the Instagram calls. -/
structure StageOutcomes where
  downloadExc : Bool
  extractOk : Bool
  logoOk : Bool
  uploadExc : Bool
  uploadUrl : String
  deleteExc : Bool
  createStatus : Nat
  createId : Option Nat
  publishStatus : Nat
deriving DecidableEq, Repr

/-- Outcome of `VideoProcessor.process_and_upload` for one candidate:
the returned value (`none` for the Python `return None`, a URL on success)
or the uncaught exception, the temp files still on disk when the function
exits, and whether the original remote file was deleted. -/
structure JobOutcome where
  result : Except PExc (Option String)
  tempsLeft : List Temp
  originalDeleted : Bool
deriving Repr

/-- Embedding of `VideoProcessor.process_and_upload` (videoprocessor.py
lines 139-172), branch for branch:
input temp allocated, download (may raise);
seg temp allocated, `extract_segment` — on failure `os.remove(input_path)`
only, `return None` (the seg temp file stays on disk);
final temp allocated, `add_bounce_logo` — on failure input and seg are
removed, `return None` (the final temp file stays on disk);
`upload_to_drive` (may raise with all three temp files on disk);
cleanup of all three temps; `file_obj.Delete()` (may raise);
return the URL. -/
def process_and_upload (o : StageOutcomes) : JobOutcome :=
  if o.downloadExc then
    ⟨Except.error PExc.downloadErr, [Temp.input], false⟩
  else if !o.extractOk then
    ⟨Except.ok none, [Temp.seg], false⟩
  else if !o.logoOk then
    ⟨Except.ok none, [Temp.finalOut], false⟩
  else if o.uploadExc then
    ⟨Except.error PExc.uploadErr, [Temp.input, Temp.seg, Temp.finalOut], false⟩
  else if o.deleteExc then
    ⟨Except.error PExc.deleteErr, [], false⟩
  else
    ⟨Except.ok (some o.uploadUrl), [], true⟩

/-- Success flag of the `post_to_instagram` call made by `run_pipeline`
for a candidate whose processing returned a URL. -/
def postOk (o : StageOutcomes) : Bool :=
  (post_to_instagram ⟨o.createStatus, o.createId⟩ o.publishStatus).1

/-- Per-candidate record produced by one `run_pipeline` iteration. -/
structure JobResult where
  url : Option String
  published : Bool
  originalDeleted : Bool
  tempsLeft : List Temp
deriving DecidableEq, Repr

/-- Body of the `for file_obj in items` loop of `run_pipeline`
(videoprocessor.py lines 213-217): process the candidate; when a URL comes
back, call `post_to_instagram`. The second component is the exception that
escaped the iteration, if any. -/
def runJob (o : StageOutcomes) : JobResult × Option PExc :=
  let j := process_and_upload o
  match j.result with
  | Except.error e => (⟨none, false, j.originalDeleted, j.tempsLeft⟩, some e)
  | Except.ok none => (⟨none, false, j.originalDeleted, j.tempsLeft⟩, none)
  | Except.ok (some url) =>
    (⟨some url, postOk o, j.originalDeleted, j.tempsLeft⟩, none)

/-- Embedding of the candidate loop of `run_pipeline` (videoprocessor.py
lines 206-217): candidates are processed sequentially; `run_pipeline`
wraps no iteration in try/except, so the first uncaught exception aborts
the loop (and, since `schedule_daily` catches nothing either, the sweep).
Returns the per-candidate results of the iterations that ran, and the
aborting exception if one escaped. -/
def run_pipeline : List StageOutcomes → List JobResult × Option PExc
  | [] => ([], none)
  | o :: rest =>
    match runJob o with
    | (r, some e) => ([r], some e)
    | (r, none) =>
      let (rs, ex) := run_pipeline rest
      (r :: rs, ex)

/-! ### Helper lemmas -/

/-- Helper: when neither the download, the upload nor the original-delete
raises, no exception escapes a `run_pipeline` iteration. -/
theorem runJob_noExc (o : StageOutcomes) (h1 : o.downloadExc = false)
    (h2 : o.uploadExc = false) (h3 : o.deleteExc = false) :
    (runJob o).2 = none := by
  rcases o with ⟨dl, ex, lg, ue, url, de, cs, cid, ps⟩
  simp only at h1 h2 h3
  subst h1 h2 h3
  cases ex <;> cases lg <;> simp [runJob, process_and_upload]

/-- Helper: the key-probing loop of `_extract_file_path` returns the first
string value found, in the order of the given key list. -/
theorem findPathKey_findSome (d : List (String × PyVal)) :
    ∀ ks : List String, findPathKey d ks = ks.findSome? (strAt d) := by
  intro ks
  induction ks with
  | nil => rfl
  | cons k ks ih =>
    simp only [findPathKey, List.findSome?]
    cases strAt d k <;> simp [ih]

/-! ### Claim theorems -/

/-- Claim C1, counterexample: a candidate whose transcode and upload all
succeed, whose create call returns 200 with id 42, and whose publish call
returns 500. The code deletes the original inside `process_and_upload`,
before `post_to_instagram` is ever called, so the job ends with the
original deleted yet not published — contradicting the claim that the
original is deleted only when both publish phases succeed. -/
theorem c1_counterexample :
    (runJob ⟨false, true, true, false, "https://store/x", false,
             200, some 42, 500⟩).1.originalDeleted = true ∧
    (runJob ⟨false, true, true, false, "https://store/x", false,
             200, some 42, 500⟩).1.published = false :=
  ⟨rfl, rfl⟩

/-- Claim C1, amended: for every candidate, the original remote file is
deleted exactly when download, both transcodes, upload and the delete call
itself succeed — independently of the Instagram calls, which happen only
afterwards; the job counts as published exactly when additionally both the
create and the publish HTTP calls return status 200. -/
theorem c1_amended (o : StageOutcomes) :
    (runJob o).1.originalDeleted =
      (!o.downloadExc && o.extractOk && o.logoOk && !o.uploadExc
        && !o.deleteExc) ∧
    (runJob o).1.published =
      (!o.downloadExc && o.extractOk && o.logoOk && !o.uploadExc
        && !o.deleteExc && (o.createStatus == 200)
        && (o.publishStatus == 200)) := by
  rcases o with ⟨dl, ex, lg, ue, url, de, cs, cid, ps⟩
  cases dl <;> cases ex <;> cases lg <;> cases ue <;> cases de <;>
    simp [runJob, process_and_upload, postOk, post_to_instagram, bne] <;>
    (cases h1 : cs == 200 <;> cases h2 : ps == 200 <;> simp_all)

/-- Claim C2, evaluation at the failing input: a candidate whose ffmpeg
segment extraction exits non-zero. `process_and_upload` removes only the
downloaded input and returns `None`, leaving the pre-allocated segment
output temp file (created on disk by `NamedTemporaryFile(delete=False)`)
behind — the job returns with a non-empty set of temp files, violating the
zero-temp-files-after-transcode-failure requirement. -/
theorem c2_bug_eval :
    (process_and_upload
        ⟨false, false, true, false, "", false, 200, none, 200⟩).tempsLeft
      = [Temp.seg] ∧
    (process_and_upload
        ⟨false, false, true, false, "", false, 200, none, 200⟩).result
      = Except.ok none :=
  ⟨rfl, rfl⟩

/-- Claim C3, counterexample: for `D = 200, M = 90` the code selects
`[0, 90)` — `extract_segment` only computes `t = min(duration, 90)` and
cuts from the start — whereas the claimed margin policy (modelled as
`specMarginWindow` from the spec words) would select `[20, 110)`. -/
theorem c3_counterexample :
    segmentWindow 200 = (0, 90) ∧ specMarginWindow 200 90 = (20, 110) ∧
    segmentWindow 200 ≠ specMarginWindow 200 90 := by
  refine ⟨?_, ?_, ?_⟩ <;>
    norm_num [segmentWindow, specMarginWindow, MAX_DURATION, Prod.ext_iff]

/-- Claim C3, amended: for every duration `D` above the maximum `M = 90`,
the selected window is `[0, 90)`: no 10% margin is skipped and no window is
centred — the code always starts at 0 and keeps the first
`min(D, MAX_DURATION)` seconds. -/
theorem c3_amended (D : ℚ) (h : MAX_DURATION < D) :
    segmentWindow D = (0, MAX_DURATION) := by
  simp [segmentWindow, min_eq_right (le_of_lt h)]

/-- Claim C3, witness: the amended statement instantiated at `D = 200`. -/
theorem c3_witness :
    MAX_DURATION < (200 : ℚ) ∧ segmentWindow 200 = (0, MAX_DURATION) :=
  ⟨by norm_num [MAX_DURATION], c3_amended 200 (by norm_num [MAX_DURATION])⟩

/-- Claim C4, counterexample: a create response with HTTP status 200 but no
`id` field. `post_to_instagram` does not treat the missing id as a create
failure: it proceeds to the publish call with a null creation id and, when
that call returns 200, reports the candidate as posted. -/
theorem c4_counterexample :
    (post_to_instagram ⟨200, none⟩ 200).1 = true ∧
    (post_to_instagram ⟨200, none⟩ 200).2 = some none :=
  ⟨rfl, rfl⟩

/-- Claim C4, amended: `post_to_instagram` never inspects the `id` field —
its outcome is success exactly when both HTTP statuses are 200, and
whenever the create status is 200 the publish call is made carrying
whatever (possibly absent) id the create response held. The single-call
client `InstagramManager.schedule_post` does fail on a missing id, but it
returns success after the create call alone: no publish phase exists
there, so phase-1 success is treated as completion. -/
theorem c4_amended :
    (∀ c ps, (post_to_instagram c ps).1 =
      ((c.status == 200) && (ps == 200))) ∧
    (∀ c ps, (post_to_instagram c ps).2 =
      if c.status == 200 then some c.idField else none) ∧
    (∀ u a i r, schedule_post u a i r =
      (truthy u && truthy a && truthy i && r.isSome)) := by
  refine ⟨?_, ?_, ?_⟩
  · intro c ps
    by_cases h1 : c.status = 200 <;> by_cases h2 : ps = 200 <;>
      simp [post_to_instagram, h1, h2]
  · intro c ps
    by_cases h1 : c.status = 200 <;> by_cases h2 : ps = 200 <;>
      simp [post_to_instagram, h1, h2]
  · intro u a i r
    simp only [schedule_post]
    cases hu : truthy u <;> cases ha : truthy a <;> cases hi : truthy i <;>
      cases r <;> simp [hu, ha, hi]

/-- Claim C5, counterexample: an invocation with exit code 0 whose output
file does not exist. The code classifies it as success — only
`result.returncode != 0` is tested; output-file existence is never
consulted — so success is not "output file exists and exit code is
zero". -/
theorem c5_counterexample : transcodeClassify 0 false [] = (true, none) :=
  rfl

/-- Claim C5, amended: the transcode result is classified as success
exactly when the process exit code is zero (output-file existence is not
checked), and on failure the logged diagnostic is the bounded prefix
`stderr[:300]` (`stderr[:200]` in the scheduler variant). -/
theorem c5_amended (rc : Int) (ex : Bool) (err : List Char) :
    transcodeClassify rc ex err =
      ((rc == 0), if rc == 0 then none else some (err.take 300)) ∧
    (err.take 300).length ≤ 300 ∧
    transcodeClassifySched rc ex err =
      ((rc == 0), if rc == 0 then none else some (err.take 200)) ∧
    (err.take 200).length ≤ 200 := by
  refine ⟨?_, ?_, ?_, ?_⟩
  · by_cases h : rc = 0 <;> simp [transcodeClassify, h]
  · simp [List.length_take]
  · by_cases h : rc = 0 <;> simp [transcodeClassifySched, h]
  · simp [List.length_take]

/-- Claim C6, counterexample: a sweep of two candidates where the first
raises during the Drive upload. `run_pipeline` wraps no iteration in
try/except, so the exception aborts the loop: the sweep ends with the
upload exception and only one candidate was processed — it does not
continue with the next candidate. -/
theorem c6_counterexample :
    (run_pipeline
        [⟨false, true, true, true, "u", false, 200, some 1, 200⟩,
         ⟨false, true, true, false, "v", false, 200, some 2, 200⟩]).2
      = some PExc.uploadErr ∧
    (run_pipeline
        [⟨false, true, true, true, "u", false, 200, some 1, 200⟩,
         ⟨false, true, true, false, "v", false, 200, some 2, 200⟩]).1.length
      = 1 :=
  ⟨rfl, rfl⟩

/-- Claim C6, amended: stage failures that the code reports as return
values — a transcode (segment or logo) failure, or any Instagram-call
failure — never stop the sweep: when no candidate raises during download,
upload or original-deletion, `run_pipeline` completes the whole list, one
result per candidate, with no escaping exception. An exception in those
three calls, however, aborts the sweep (previous theorem). -/
theorem c6_amended (os : List StageOutcomes)
    (h : ∀ o ∈ os,
      o.downloadExc = false ∧ o.uploadExc = false ∧ o.deleteExc = false) :
    (run_pipeline os).2 = none ∧
    (run_pipeline os).1.length = os.length := by
  induction os with
  | nil => simp [run_pipeline]
  | cons o rest ih =>
    have ho := h o (List.mem_cons_self o rest)
    have hex : (runJob o).2 = none := runJob_noExc o ho.1 ho.2.1 ho.2.2
    have hr := ih (fun x hx => h x (List.mem_cons_of_mem o hx))
    cases hj : runJob o with
    | mk r sexc =>
      rw [hj] at hex
      subst hex
      cases hrp : run_pipeline rest with
      | mk rs ex2 =>
        rw [hrp] at hr
        simp only [run_pipeline, hj, hrp]
        simpa using hr

/-- Claim C6, witness: the amended statement at a one-candidate sweep whose
segment extraction fails (a transcode failure, no exceptions): the sweep
completes with one result and no escaping exception. -/
theorem c6_witness :
    (∀ o ∈ [(⟨false, false, true, false, "", false, 200, none, 200⟩ :
        StageOutcomes)],
      o.downloadExc = false ∧ o.uploadExc = false ∧ o.deleteExc = false) ∧
    (run_pipeline
        [⟨false, false, true, false, "", false, 200, none, 200⟩]).2 = none ∧
    (run_pipeline
        [⟨false, false, true, false, "", false, 200, none, 200⟩]).1.length
      = 1 :=
  ⟨by decide,
   c6_amended [⟨false, false, true, false, "", false, 200, none, 200⟩]
     (by decide)⟩

/-- Claim C7, counterexample: the y-coordinate expression of the main
builder variant (`add_bounce_logo`) contains no sinusoid at all — it is a
nested piecewise-constant conditional — and the scheduler variant uses a
single sinusoid for x; so it is false that x(t) and y(t) are each a sum of
at least two sinusoids in every emitted filter. -/
theorem c7_counterexample :
    sinusoidCount yExprVP = 0 ∧ sinusoidCount xExprSched = 1 :=
  ⟨rfl, rfl⟩

/-- Claim C7, amended: only the x-expression of the main variant is a sum
of two out-of-phase sinusoids (a sine and a cosine) with distinct
amplitudes (120 vs 80) and distinct frequencies (2.1·π/10 vs 1.6·π/6); its
y-expression contains no sinusoid, and the scheduler variant uses exactly
one sinusoid per coordinate. Determinism holds trivially: each variant
emits a fixed literal filter string, so two builds are bit-identical. -/
theorem c7_amended :
    sinusoidCount xExprVP = 2 ∧
    hasSub "120*sin(2.1*PI*t/10)" xExprVP = true ∧
    hasSub "80*cos(1.6*PI*t/6)" xExprVP = true ∧
    (120 : ℚ) ≠ 80 ∧ (2.1 / 10 : ℚ) ≠ 1.6 / 6 ∧
    sinusoidCount yExprVP = 0 ∧
    sinusoidCount xExprSched = 1 ∧ sinusoidCount yExprSched = 1 :=
  ⟨rfl, rfl, rfl, by norm_num, by norm_num, rfl, rfl, rfl⟩

set_option maxRecDepth 40000 in
/-- Claim C8, counterexample: the overlay filter emitted by the scheduler
variant `process_video` contains no `enable` clause at all, so that
variant does not restrict the watermark animation to `[0, cap]`. -/
theorem c8_counterexample : hasSub "enable" filter_chain = false := by
  decide

set_option maxRecDepth 40000 in
/-- Claim C8, amended: the main variant (`add_bounce_logo`) does carry the
clause enabling the overlay on the window `[0, 30]`, but the scheduler
variant emits no `enable` clause, so its watermark animates for the whole
video. -/
theorem c8_amended :
    hasSub "enable=\x27between(t,0,30)\x27" bounce_filter = true ∧
    hasSub "enable" filter_chain = false := by
  refine ⟨by decide, by decide⟩

/-- Claim C9: for every non-negative duration `D` the selected window
`[start, end)` satisfies `0 ≤ start ≤ end ≤ D` and
`end - start ≤ MAX_DURATION`, and `D = 0` yields `[0, 0)`. -/
theorem c9_segment_window_bounds (D : ℚ) (h : 0 ≤ D) :
    (0 ≤ (segmentWindow D).1 ∧
     (segmentWindow D).1 ≤ (segmentWindow D).2 ∧
     (segmentWindow D).2 ≤ D ∧
     (segmentWindow D).2 - (segmentWindow D).1 ≤ MAX_DURATION) ∧
    (D = 0 → segmentWindow D = (0, 0)) := by
  constructor
  · refine ⟨le_refl 0, ?_, ?_, ?_⟩
    · simpa [segmentWindow] using le_min h (by norm_num [MAX_DURATION])
    · simpa [segmentWindow] using min_le_left D MAX_DURATION
    · simpa [segmentWindow] using min_le_right D MAX_DURATION
  · intro h0
    subst h0
    simp only [segmentWindow, Prod.mk.injEq, true_and]
    exact min_eq_left (by norm_num [MAX_DURATION])

/-- Claim C9, witness: the bounds instantiated at `D = 40`. -/
theorem c9_witness :
    (0 : ℚ) ≤ 40 ∧
    ((0 ≤ (segmentWindow 40).1 ∧
      (segmentWindow 40).1 ≤ (segmentWindow 40).2 ∧
      (segmentWindow 40).2 ≤ 40 ∧
      (segmentWindow 40).2 - (segmentWindow 40).1 ≤ MAX_DURATION) ∧
     ((40 : ℚ) = 0 → segmentWindow 40 = (0, 0))) :=
  ⟨by norm_num, c9_segment_window_bounds 40 (by norm_num)⟩

/-- Claim C10: `_extract_file_path` returns a string input unchanged; for
a dict it returns the first string value found probing
`path, file_path, local_path, filename, file, video_path` in that order,
then the same keys under a nested `media` dict, raising `ValueError` when
none is found; any non-string non-dict input raises `TypeError`; and in
every such error case `upload_media` propagates the error before any Drive
upload is attempted (an upload happens only on an `Except.ok` result). -/
theorem c10_extract_file_path_spec :
    (∀ s, extract_file_path (PyVal.str s) = Except.ok s) ∧
    (∀ d, extract_file_path (PyVal.dict d) =
      (match path_keys.findSome? (strAt d) with
       | some s => Except.ok s
       | none =>
         match dictGet d "media" with
         | some (PyVal.dict m) =>
           (match path_keys.findSome? (strAt m) with
            | some s => Except.ok s
            | none => Except.error PyErr.valueError)
         | _ => Except.error PyErr.valueError)) ∧
    (extract_file_path PyVal.other = Except.error PyErr.typeError) ∧
    (∀ fid fe du v e, truthy fid = true →
      extract_file_path v = Except.error e →
      upload_media fid fe du v = Except.error e) := by
  refine ⟨fun s => rfl, ?_, rfl, ?_⟩
  · intro d
    simp only [extract_file_path, ← findPathKey_findSome]
  · intro fid fe du v e ht he
    simp [upload_media, ht, he]

/-- Claim C10, witness: a non-string non-dict input raises `TypeError` and
`upload_media` (with the folder env var configured) propagates it without
attempting an upload. -/
theorem c10_witness :
    truthy (some "F") = true ∧
    extract_file_path PyVal.other = Except.error PyErr.typeError ∧
    upload_media (some "F") (fun _ => true) (fun p => p) PyVal.other
      = Except.error PyErr.typeError :=
  ⟨rfl, rfl,
   c10_extract_file_path_spec.2.2.2 (some "F") (fun _ => true) (fun p => p)
     PyVal.other PyErr.typeError rfl rfl⟩

end CCmasterbot
